import Mathlib

/-!
Verification of the paginated/filtered table-view components and the account
management dialog of the rotki frontend.

Each definition below is a shallow embedding of a piece of the Vue components:

* `DepositsWithdrawalsContent.vue` (asset movements table)
* `NftBalanceTable.vue` (NFT balances table)
* the account management dialog (unnamed source file, `part_000`)
* `DefiProtocolIcon.vue`
* `HistoryEventTypeForm.vue`

Side effects (invocations of the fetch function, the secondary refresh
side-channels, and the bulk-ignore action) are modelled as values of `Eff`,
and each handler is embedded as a pure function returning the list of
effects it performs, in order.
-/

/-- Side effects performed by the table-view components: the primary fetch
(`fetchData` from `usePaginationFilters`), the two secondary refresh
side-channels, and the bulk-ignore call. -/
inductive Eff where
  | fetchData
  | refreshAssetMovements
  | refreshNonFungibleBalances
  | ignoreCall
deriving DecidableEq, BEq, Repr

/-! ## Loading-flag watcher (C1)

Both table components contain the identical watcher

  watch(loading, async (isLoading, wasLoading) => \x7b
    if (!isLoading && wasLoading)
      await fetchData();
  \x7d);

(`DepositsWithdrawalsContent.vue` lines 178-181, `NftBalanceTable.vue`
lines 132-135).  Vue batches watcher callbacks: however often the source ref
is written within a tick, at flush time the callback runs at most once, with
the current value as `newVal` and the value observed at the previous flush as
`oldVal`, and only when the two differ. -/

/-- Body of `watch(loading, ...)` in both table components: returns whether
`fetchData` is invoked, given the new and the old value of the loading flag. -/
def loadingWatchBody (isLoading wasLoading : Bool) : Bool :=
  !isLoading && wasLoading

/-- Flush of the batched loading watcher at the end of one tick: `prev` is the
value observed at the previous flush, `togs` the successive values the flag
was set to during the tick (possibly many toggles).  Returns the newly
observed value and the number of `fetchData` invocations this flush performs. -/
def flushLoadingWatch (prev : Bool) (togs : List Bool) : Bool × Nat :=
  let final := togs.getLastD prev
  if final = prev then (prev, 0)
  else (final, if loadingWatchBody final prev then 1 else 0)

/-! ## Mount hooks (C6) -/

/-- Effects of `onMounted` in `DepositsWithdrawalsContent.vue` lines 173-176:
`await fetchData(); await refreshAssetMovements();`. -/
def depositsOnMounted : List Eff :=
  [Eff.fetchData, Eff.refreshAssetMovements]

/-- Effects of `onMounted` in `NftBalanceTable.vue` lines 127-130:
`await fetchData(); await refreshNonFungibleBalances();`. -/
def nftOnMounted : List Eff :=
  [Eff.fetchData, Eff.refreshNonFungibleBalances]

/-! ## Column headers (C5) -/

/-- Data table column description, after `DataTableColumn` of the UI library:
the fields used by the two components.  `label` carries the i18n key passed to
`t`, and `className` embeds the `class` field of the source (a reserved word
in Lean). -/
structure Column where
  key : String
  label : String
  sortable : Bool := false
  align : Option String := none
  cellClass : Option String := none
  className : Option String := none
deriving DecidableEq, Repr

/-- Headers of the deposits/withdrawals table
(`DepositsWithdrawalsContent.vue` lines 49-102).  `locationOverview` is the
component prop (default `""`); `mainPage` is `locationOverview === ''` and
`overview = !mainPage`.  When `overview` holds, `headers.splice(1, 1)`
removes the element at index 1, the `location` column. -/
def depositsTableHeaders (locationOverview : String) : List Column :=
  let overview := !(locationOverview = "")
  let headers : List Column :=
    [ { key := "ignoredInAccounting", label := "",
        cellClass := some (if !overview then "!p-0" else "!w-0 !max-w-[4rem]"),
        className := some (if !overview then "!p-0" else "") },
      { key := "location", label := "common.location", sortable := true,
        align := some "center", cellClass := some "!py-1",
        className := some "!w-[7.5rem]" },
      { key := "category", label := "deposits_withdrawals.headers.action",
        sortable := true,
        align := some (if overview then "start" else "center"),
        cellClass := some (if overview then "!pl-0" else "py-1"),
        className := some (if overview then "text-no-wrap !pl-0" else "text-no-wrap") },
      { key := "asset", label := "common.asset", cellClass := some "!py-1" },
      { key := "amount", label := "common.amount", sortable := true,
        align := some "end" },
      { key := "fee", label := "deposits_withdrawals.headers.fee",
        sortable := true, align := some "end" },
      { key := "timestamp", label := "common.datetime", sortable := true } ]
  if overview then headers.eraseIdx 1 else headers

/-- The dashboard column toggles relevant to `NftBalanceTable.vue`, from
`@/types/table-column`. -/
inductive TableColumn where
  | percentageOfTotalNetValue
  | percentageOfTotalCurrentGroup
deriving DecidableEq, BEq, Repr

/-- Headers of the NFT balance table (`NftBalanceTable.vue` lines 64-117):
three base columns, then one optional column pushed for each enabled
percentage column of the dashboard visible-columns setting. -/
def nftTableHeaders (visibleColumns : List TableColumn) : List Column :=
  let base : List Column :=
    [ { key := "name", label := "common.name", sortable := true,
        cellClass := some "py-0", className := some "text-no-wrap w-full" },
      { key := "priceInAsset", label := "nft_balance_table.column.price_in_asset",
        align := some "end", cellClass := some "py-0",
        className := some "text-no-wrap" },
      { key := "usdPrice", label := "common.price_in_symbol", sortable := true,
        align := some "end", cellClass := some "py-0",
        className := some "text-no-wrap" } ]
  let withNet :=
    if visibleColumns.contains TableColumn.percentageOfTotalNetValue then
      base ++ [ { key := "percentageOfTotalNetValue",
                  label := "nft_balance_table.column.percentage",
                  align := some "end", cellClass := some "py-0",
                  className := some "text-no-wrap" } ]
    else base
  if visibleColumns.contains TableColumn.percentageOfTotalCurrentGroup then
    withNet ++ [ { key := "percentageOfTotalCurrentGroup",
                   label := "dashboard_asset_table.headers.percentage_of_total_current_group",
                   align := some "end", cellClass := some "py-0",
                   className := some "text-no-wrap" } ]
  else withNet

/-! ## Theorems for C1, C5, C6 -/

/-- C1: for every table view (asset movements and NFT balances), whenever the
section loading flag transitions from true to false, the primary fetch is
re-run (exactly one `fetchData` per flush observing the transition), and the
flush outcome depends only on the previously observed value and the final
value of the tick, regardless of how many times the flag toggled within the
tick. -/
theorem loading_transition_fetches_once (prev : Bool) (togs togs' : List Bool)
    (hfin : togs.getLastD prev = togs'.getLastD prev) :
    (prev = true → togs.getLastD prev = false →
      (flushLoadingWatch prev togs).2 = 1) ∧
    flushLoadingWatch prev togs = flushLoadingWatch prev togs' := by
  constructor
  · intro hp hf
    subst hp
    simp only [flushLoadingWatch, hf, loadingWatchBody]
    decide
  · simp only [flushLoadingWatch]
    rw [hfin]

/-- Witness for C1: with the flag previously observed true and a tick in which
it toggled false, true, false, the flush performs exactly one fetch, the same
outcome as a tick with a single toggle to false. -/
theorem loading_transition_fetches_once_witness :
    (flushLoadingWatch true [false, true, false]).2 = 1 ∧
    flushLoadingWatch true [false, true, false] = flushLoadingWatch true [false] := by
  have h := loading_transition_fetches_once true [false, true, false] [false] (by decide)
  exact ⟨h.1 rfl (by decide), h.2⟩

/-- C6: on mount, each table view invokes the primary fetch exactly once, and
the secondary refresh side-channel (`refreshAssetMovements` resp.
`refreshNonFungibleBalances`) is invoked exactly once, strictly after the
fetch. -/
theorem mount_fetch_then_refresh :
    depositsOnMounted.count Eff.fetchData = 1 ∧
    depositsOnMounted.count Eff.refreshAssetMovements = 1 ∧
    depositsOnMounted.indexOf Eff.fetchData <
      depositsOnMounted.indexOf Eff.refreshAssetMovements ∧
    nftOnMounted.count Eff.fetchData = 1 ∧
    nftOnMounted.count Eff.refreshNonFungibleBalances = 1 ∧
    nftOnMounted.indexOf Eff.fetchData <
      nftOnMounted.indexOf Eff.refreshNonFungibleBalances := by
  decide

/-- C5: the deposits/withdrawals table has the seven specified columns on the
main page and omits exactly the `location` column (six remain) when scoped to
a known location; the NFT table has three base columns plus one per enabled
percentage column. -/
theorem header_counts (lo : String) (cols : List TableColumn) :
    (lo = "" → (depositsTableHeaders lo).map Column.key =
      ["ignoredInAccounting", "location", "category", "asset", "amount",
       "fee", "timestamp"] ∧ (depositsTableHeaders lo).length = 7) ∧
    (lo ≠ "" → (depositsTableHeaders lo).map Column.key =
      ["ignoredInAccounting", "category", "asset", "amount", "fee",
       "timestamp"] ∧ (depositsTableHeaders lo).length = 6) ∧
    (nftTableHeaders cols).length =
      3 + (if cols.contains TableColumn.percentageOfTotalNetValue then 1 else 0)
        + (if cols.contains TableColumn.percentageOfTotalCurrentGroup then 1 else 0) := by
  refine ⟨fun h => ?_, fun h => ?_, ?_⟩
  · subst h
    exact ⟨rfl, rfl⟩
  · simp only [depositsTableHeaders, h]
    norm_num [List.eraseIdx]
  · simp only [nftTableHeaders]
    rcases h1 : cols.contains TableColumn.percentageOfTotalNetValue <;>
      rcases h2 : cols.contains TableColumn.percentageOfTotalCurrentGroup <;>
        simp [h1, h2]

/-- Witness for C5: the concrete header shapes for the main page, for a
location-scoped view, and for the NFT table with both percentage columns
enabled. -/
theorem header_counts_witness :
    ((depositsTableHeaders "").length = 7 ∧
      (depositsTableHeaders "kraken").length = 6) ∧
    (nftTableHeaders [TableColumn.percentageOfTotalNetValue,
      TableColumn.percentageOfTotalCurrentGroup]).length = 3 + 1 + 1 := by
  have h1 := header_counts "" []
  have h2 := header_counts "kraken"
    [TableColumn.percentageOfTotalNetValue, TableColumn.percentageOfTotalCurrentGroup]
  exact ⟨⟨(h1.1 rfl).2, (h2.2.1 (by decide)).2⟩, by
    rw [h2.2.2]; decide⟩

/-! ## Show-ignored-assets toggle (C7)

`DepositsWithdrawalsContent.vue` line 45 declares
`showIgnoredAssets = ref(false)` and lines 104-106 derive

  extraParams = computed(() => (\x7b excludeIgnoredAssets: !get(showIgnoredAssets) \x7d));

which is passed to `usePaginationFilters` as `extraParams`. -/

/-- Extra fixed request parameters of the asset-movements fetch payload. -/
structure AssetMovementExtraParams where
  excludeIgnoredAssets : Bool
deriving DecidableEq, Repr

/-- The computed `extraParams` of `DepositsWithdrawalsContent.vue`
lines 104-106: the payload flag is the negation of the switch state. -/
def extraParams (showIgnoredAssets : Bool) : AssetMovementExtraParams :=
  { excludeIgnoredAssets := !showIgnoredAssets }

/-- The `RuiSwitch` with `v-model="showIgnoredAssets"` toggles the switch
state. -/
def toggleShowIgnoredAssets (showIgnoredAssets : Bool) : Bool :=
  !showIgnoredAssets

/-- Modelled from the spec: `usePaginationFilters` (the Collection Fetcher) is
an external collaborator not among the sources; per the spec, each fetch is
triggered by a discrete event (mount, sort change, page change, filter
change), and toggling the exclude-ignored control "must update the fetch
payload's corresponding flag and trigger exactly one re-fetch" — so a single
discrete change of the reactive `extraParams` triggers a single `fetchData`,
and an unchanged value triggers none. -/
def fetcherOnExtraParamsChange (oldParams newParams : AssetMovementExtraParams) :
    List Eff :=
  if newParams = oldParams then [] else [Eff.fetchData]

/-! ## Row selection (C8)

`DepositsWithdrawalsContent.vue` lines 154-167 define the two-way `value`
binding over the selection set, and lines 250-256 the clear-selection button
(`@click="selected = []"`).  Bulk ignore (lines 146-149) is wired through
`useIgnore(\x7b...\x7d, selected, () => fetchData())`, whose callback re-fetches
after the ignore action. -/

/-- Row type of the asset-movements table: the fields this component reads. -/
structure AssetMovementEntry where
  identifier : String
  ignoredInAccounting : Bool
deriving DecidableEq, Repr

/-- Getter of the `value` computed (lines 155-160): `undefined` unless on the
main page, otherwise the selected identifiers. -/
def selectionValueGet (mainPage : Bool) (selected : List AssetMovementEntry) :
    Option (List String) :=
  if !mainPage then none
  else some (selected.map (·.identifier))

/-- Setter of the `value` computed (lines 161-166): keeps the rows of the
current collection whose identifier is among the given values
(`values?.includes(identifier)` is falsy when `values` is `undefined`). -/
def selectionValueSet (data : List AssetMovementEntry)
    (values : Option (List String)) : List AssetMovementEntry :=
  data.filter fun e =>
    match values with
    | some vs => vs.contains e.identifier
    | none => false

/-- The selection setter's state update paired with the effects it performs:
the setter body only writes `selected`; it calls no fetch. -/
def applySelectionSet (data : List AssetMovementEntry)
    (values : Option (List String)) : List AssetMovementEntry × List Eff :=
  (selectionValueSet data values, [])

/-- The clear-selection button handler (`selected = []`, lines 250-256) paired
with its effects: it only resets the selection; it calls no fetch. -/
def applyClearSelection (_selected : List AssetMovementEntry) :
    List AssetMovementEntry × List Eff :=
  ([], [])

/-- Effects of the bulk-ignore action (lines 146-149): the ignore call, then
the `fetchData` re-fetch performed by the `() => fetchData()` callback. -/
def ignoreEffects : List Eff :=
  [Eff.ignoreCall, Eff.fetchData]

/-! ## Theorems for C7 and C8 -/

/-- C7: the fetch payload's `excludeIgnoredAssets` flag always equals the
negation of the switch state, and toggling the switch changes the extra
params and hence triggers exactly one re-fetch. -/
theorem toggle_ignored_assets_refetches_once (b : Bool) :
    (extraParams b).excludeIgnoredAssets = !b ∧
    fetcherOnExtraParamsChange (extraParams b)
      (extraParams (toggleShowIgnoredAssets b)) = [Eff.fetchData] := by
  constructor
  · rfl
  · cases b <;> decide

/-- C8: clearing the selection resets the selection set to empty, and no
selection change — neither the setter nor the clear button — performs any
fetch; the bulk-ignore action does re-fetch. -/
theorem selection_changes_do_not_fetch (sel data : List AssetMovementEntry)
    (values : Option (List String)) :
    (applyClearSelection sel).1 = [] ∧
    (applyClearSelection sel).2.contains Eff.fetchData = false ∧
    (applySelectionSet data values).2.contains Eff.fetchData = false ∧
    ignoreEffects.contains Eff.fetchData = true := by
  exact ⟨rfl, rfl, rfl, by decide⟩

/-! ## Account management dialog (C2, C3, C4)

The unnamed source file binds `model : AccountManageState | undefined`
(`undefined` = dialog closed), a child `AccountForm` whose `validate()` the
`confirm` handler awaits, and an external `save` contract returning a success
flag.  The deep watcher over `model` derives the `stateUpdated` flag that is
bound to the dialog's `prompt-on-close`. -/

/-- Mode tag of `AccountManageState`: create vs. edit. -/
inductive ManageMode where
  | add
  | edit
deriving DecidableEq, Repr

/-- The management state handled by the dialog: the fields the component
reads (`mode`, `chain`, `data`); the account payload type is a parameter. -/
structure AccountManageState (α : Type) where
  mode : ManageMode
  chain : String
  data : α
deriving DecidableEq, Repr

/-- Outcome of one run of the `confirm` handler: the resulting `model`
(`none` = dialog closed), whether `complete` was emitted, whether the
external `save` contract was invoked, and whether `errorMessages` was reset. -/
structure ConfirmOutcome (α : Type) where
  newModel : Option (AccountManageState α)
  completeEmitted : Bool
  saveInvoked : Bool
  errorMessagesCleared : Bool
deriving DecidableEq, Repr

/-- The `confirm` handler (unnamed file, lines 36-52): clears error messages,
awaits child-form validation and returns early when invalid; then asserts the
model is set (`none` model makes the assertion fail, modelled as `none`
outcome), invokes `save`, and on success emits `complete` and dismisses
(`set(model, undefined)`); on failure it changes nothing. -/
def confirmDialog {α : Type} (valid : Bool) (model : Option (AccountManageState α))
    (save : AccountManageState α → Bool) : Option (ConfirmOutcome α) :=
  if !valid then
    some { newModel := model, completeEmitted := false, saveInvoked := false,
           errorMessagesCleared := true }
  else
    match model with
    | none => none
    | some state =>
      if save state then
        some { newModel := none, completeEmitted := true, saveInvoked := true,
               errorMessagesCleared := true }
      else
        some { newModel := some state, completeEmitted := false, saveInvoked := true,
               errorMessagesCleared := true }

/-- One firing of the deep `watch(model, ...)` (unnamed file, lines 53-62):
when either value is missing the flag resets to false; when the chain is
unchanged and the data deep-differs from the previous value the flag is set;
otherwise it keeps its value.  `lodash` `isEqual` is structural equality. -/
def modelWatchStep {α : Type} [DecidableEq α]
    (newModel oldModel : Option (AccountManageState α))
    (stateUpdated : Bool) : Bool :=
  match newModel, oldModel with
  | some m, some o =>
    if m.chain = o.chain ∧ ¬m.data = o.data then true else stateUpdated
  | _, _ => false

/-- Runs the deep watcher over a whole sequence of model updates, starting
from the initial model (the edit snapshot) and `stateUpdated = ref(false)`;
returns the final model and the final `stateUpdated` flag. -/
def runModelWatch {α : Type} [DecidableEq α] (init : Option (AccountManageState α))
    (updates : List (Option (AccountManageState α))) :
    Option (AccountManageState α) × Bool :=
  updates.foldl
    (fun acc newModel => (newModel, modelWatchStep newModel acc.1 acc.2))
    (init, false)

/-- Binding of the dirty flag in the template (line 73):
`:prompt-on-close="stateUpdated"`. -/
def bigDialogPromptOnClose (stateUpdated : Bool) : Bool :=
  stateUpdated

/-! ## Theorems for C2, C3, C4 -/

/-- C2: for every confirm with the dialog open on state `s`, the handler
produces an outcome (the assertion holds), the dialog closes (`model` set to
`undefined`) and `complete` is emitted exactly when `save` was invoked and
returned success, and when `save` returns false the model is unchanged, so
the dialog stays open. -/
theorem confirm_closes_iff_save_succeeds {α : Type} (valid : Bool)
    (s : AccountManageState α) (save : AccountManageState α → Bool) :
    (confirmDialog valid (some s) save).isSome = true ∧
    ∀ out, confirmDialog valid (some s) save = some out →
      (((out.newModel = none ∧ out.completeEmitted = true) ↔
          (out.saveInvoked = true ∧ save s = true)) ∧
        (save s = false → out.newModel = some s ∧ out.completeEmitted = false)) := by
  cases valid with
  | false =>
    refine ⟨rfl, fun out hout => ?_⟩
    rw [show confirmDialog false (some s) save =
      some { newModel := some s, completeEmitted := false, saveInvoked := false,
             errorMessagesCleared := true } from rfl] at hout
    cases hout
    simp
  | true =>
    cases hsave : save s with
    | false =>
      refine ⟨by simp [confirmDialog, hsave], fun out hout => ?_⟩
      simp only [confirmDialog, hsave, Bool.not_true, if_neg] at hout
      simp only [Bool.false_eq_true, if_false, Option.some.injEq] at hout
      subst hout
      simp [hsave]
    | true =>
      refine ⟨by simp [confirmDialog, hsave], fun out hout => ?_⟩
      simp only [confirmDialog, hsave, if_true] at hout
      simp only [Bool.not_true, Bool.false_eq_true, if_false, Option.some.injEq] at hout
      subst hout
      simp [hsave]

/-- Witness for C2: with validation passing and a save contract that fails,
the concrete outcome keeps the dialog open on the same state and emits
nothing. -/
theorem confirm_closes_iff_save_succeeds_witness :
    (confirmDialog true (some (⟨ManageMode.add, "eth", 0⟩ : AccountManageState Nat))
        (fun _ => false)).isSome = true ∧
    ((⟨some ⟨ManageMode.add, "eth", 0⟩, false, true, true⟩ : ConfirmOutcome Nat).newModel =
        some ⟨ManageMode.add, "eth", 0⟩ ∧
      (⟨some ⟨ManageMode.add, "eth", 0⟩, false, true, true⟩ : ConfirmOutcome Nat).completeEmitted =
        false) := by
  have h := confirm_closes_iff_save_succeeds true
    (⟨ManageMode.add, "eth", 0⟩ : AccountManageState Nat) (fun _ => false)
  exact ⟨h.1, (h.2 ⟨some ⟨ManageMode.add, "eth", 0⟩, false, true, true⟩ rfl).2 rfl⟩

/-- C4: when child-form validation reports the form invalid, the save
contract is not invoked and the model — open or not — is left exactly as it
was, so the dialog remains open. -/
theorem invalid_form_never_saves {α : Type} (model : Option (AccountManageState α))
    (save : AccountManageState α → Bool) :
    confirmDialog false model save =
      some { newModel := model, completeEmitted := false, saveInvoked := false,
             errorMessagesCleared := true } :=
  rfl

/-- Counterexample for C3: the watcher compares each update to the previous
model value, not to the initial edit snapshot.  Starting from the snapshot
`E = (edit, "eth", 0)` and applying the updates `(edit, "btc", 1)`,
`(edit, "eth", 1)`, `(edit, "eth", 0)` — each of the first two changes the
chain, so neither sets the flag — the final update keeps the chain and
changes the data, setting the dirty flag, although the final form data is
structurally identical to the snapshot `E`. -/
theorem dirty_flag_counterexample :
    runModelWatch (some (⟨ManageMode.edit, "eth", 0⟩ : AccountManageState Nat))
      [some ⟨ManageMode.edit, "btc", 1⟩, some ⟨ManageMode.edit, "eth", 1⟩,
       some ⟨ManageMode.edit, "eth", 0⟩] =
      (some ⟨ManageMode.edit, "eth", 0⟩, true) := by
  decide

/-- C3 as amended: the dirty flag becomes true only when a model update keeps
the chain unchanged and deep-changes the data relative to the immediately
preceding model value (not the initial snapshot); the flag is exactly what is
bound to the dialog's close-confirmation prompt. -/
theorem dirty_flag_transition {α : Type} [DecidableEq α]
    (newModel oldModel : Option (AccountManageState α)) (d : Bool)
    (h : modelWatchStep newModel oldModel false = true) :
    (∃ m o, newModel = some m ∧ oldModel = some o ∧
      m.chain = o.chain ∧ m.data ≠ o.data) ∧
    bigDialogPromptOnClose d = d := by
  refine ⟨?_, rfl⟩
  match newModel, oldModel with
  | some m, some o =>
    by_cases hc : m.chain = o.chain ∧ ¬m.data = o.data
    · exact ⟨m, o, rfl, rfl, hc.1, hc.2⟩
    · rw [modelWatchStep, if_neg hc] at h
      cases h
  | some m, none => cases h
  | none, some o => cases h
  | none, none => cases h

/-- Witness for the amended C3: a same-chain data change from the previous
value sets the flag, and the transition theorem recovers that change. -/
theorem dirty_flag_transition_witness :
    ∃ m o, (some (⟨ManageMode.edit, "eth", 1⟩ : AccountManageState Nat) = some m) ∧
      (some (⟨ManageMode.edit, "eth", 0⟩ : AccountManageState Nat) = some o) ∧
      m.chain = o.chain ∧ m.data ≠ o.data :=
  (dirty_flag_transition
    (some (⟨ManageMode.edit, "eth", 1⟩ : AccountManageState Nat))
    (some ⟨ManageMode.edit, "eth", 0⟩) true (by decide)).1

/-! ## DefiProtocolIcon (C9)

`DefiProtocolIcon.vue` lines 14-23 compute the icon name from the protocol
string with the JavaScript string primitives `endsWith`, `startsWith` and
`replace` with a string pattern — which replaces only the first occurrence. -/

/-- JavaScript `String.prototype.replace` with a string pattern, on character
lists: replaces the first (leftmost) occurrence of `pat` by `repl`, and
returns the input unchanged when `pat` does not occur. -/
def jsReplaceList (pat repl : List Char) : List Char → List Char
  | [] => if pat.isPrefixOf ([] : List Char) then repl else []
  | c :: rest =>
    if pat.isPrefixOf (c :: rest) then repl ++ (c :: rest).drop pat.length
    else c :: jsReplaceList pat repl rest

/-- JavaScript `s.replace(pat, repl)` on strings. -/
def jsReplace (s pat repl : String) : String :=
  ⟨jsReplaceList pat.data repl.data s.data⟩

/-- JavaScript `s.endsWith(search)`: suffix check on the character sequence. -/
def jsEndsWith (s search : String) : Bool :=
  search.data.isSuffixOf s.data

/-- JavaScript `s.startsWith(search)`: prefix check on the character
sequence. -/
def jsStartsWith (s search : String) : Bool :=
  search.data.isPrefixOf s.data

/-- The `icon` computed of `DefiProtocolIcon.vue` lines 14-23:
`defiProtocol.endsWith('_v2')` first (the replace branch), then
`defiProtocol.startsWith('makerdao')`, else the protocol unchanged. -/
def defiProtocolIcon (protocol : String) : String :=
  if jsEndsWith protocol "_v2" then jsReplace protocol "_v2" ""
  else if jsStartsWith protocol "makerdao" then "makerdao"
  else protocol

/-- Helper for C9: when the pattern is a prefix of the input, replacing by
the empty string drops the leading pattern. -/
theorem jsReplaceList_of_isPrefixOf (pat s : List Char)
    (h : pat.isPrefixOf s = true) :
    jsReplaceList pat [] s = s.drop pat.length := by
  cases s with
  | nil => simp [jsReplaceList]
  | cons c rest => simp [jsReplaceList, h]

/-- Helper for C9: replacing the first occurrence with the empty string
removes exactly that occurrence: when no occurrence of `pat` starts inside
the prefix `a`, `jsReplaceList` maps `a ++ pat ++ b` to `a ++ b`. -/
theorem jsReplaceList_first_occurrence (pat b : List Char) :
    ∀ a : List Char,
      (∀ i, i < a.length → ¬pat.isPrefixOf ((a ++ pat ++ b).drop i)) →
      jsReplaceList pat [] (a ++ pat ++ b) = a ++ b := by
  intro a
  induction a with
  | nil =>
    intro _
    have hpre : pat.isPrefixOf (pat ++ b) = true := by
      simp [List.isPrefixOf_iff_prefix]
    rw [List.nil_append, jsReplaceList_of_isPrefixOf pat _ hpre, List.drop_left,
      List.nil_append]
  | cons c a ih =>
    intro hno
    have hc : pat.isPrefixOf (c :: (a ++ pat ++ b)) = false := by
      have h0 := hno 0 (by simp)
      simp only [List.drop_zero, List.cons_append] at h0
      simp only [List.append_assoc] at h0 ⊢
      exact Bool.not_eq_true _ ▸ h0
    have hrest : ∀ i, i < a.length → ¬pat.isPrefixOf ((a ++ pat ++ b).drop i) := by
      intro i hi
      have := hno (i + 1) (by simpa using Nat.succ_lt_succ hi)
      simpa using this
    calc jsReplaceList pat [] ((c :: a) ++ pat ++ b)
        = jsReplaceList pat [] (c :: (a ++ pat ++ b)) := by
          simp [List.cons_append]
      _ = c :: jsReplaceList pat [] (a ++ pat ++ b) := by
          rw [jsReplaceList, if_neg (by simp only [hc]; exact Bool.false_ne_true)]
      _ = c :: (a ++ b) := by rw [ih hrest]
      _ = (c :: a) ++ b := by simp

/-- C9: the DefiProtocolIcon icon name is the protocol with its first
occurrence of `_v2` removed when the protocol ends with `_v2` (this branch
takes precedence), exactly `makerdao` when it does not end with `_v2` but
starts with `makerdao`, and the protocol unchanged otherwise. -/
theorem defi_protocol_icon_spec (p : String) :
    (jsEndsWith p "_v2" = true → defiProtocolIcon p = jsReplace p "_v2" "") ∧
    (jsEndsWith p "_v2" = false → jsStartsWith p "makerdao" = true →
      defiProtocolIcon p = "makerdao") ∧
    (jsEndsWith p "_v2" = false → jsStartsWith p "makerdao" = false →
      defiProtocolIcon p = p) ∧
    (∀ a b : List Char,
      (∀ i, i < a.length → ¬("_v2".data.isPrefixOf ((a ++ "_v2".data ++ b).drop i))) →
      jsReplaceList "_v2".data [] (a ++ "_v2".data ++ b) = a ++ b) := by
  refine ⟨fun h => ?_, fun h1 h2 => ?_, fun h1 h2 => ?_,
    fun a b h => jsReplaceList_first_occurrence _ _ a h⟩
  · simp [defiProtocolIcon, h]
  · simp [defiProtocolIcon, h1, h2]
  · simp [defiProtocolIcon, h1, h2]

/-- Witness for C9: `uniswap_v2` takes the replace branch and maps to
`uniswap`; `makerdao_dsr_v2` also ends with `_v2`, so the replace branch wins
over the `makerdao` prefix and yields `makerdao_dsr`; `makerdao_dsr` maps to
`makerdao`; `compound` is unchanged; and removing the unique `_v2` occurrence
of `uniswap_v2` leaves `uniswap`. -/
theorem defi_protocol_icon_spec_witness :
    defiProtocolIcon "uniswap_v2" = jsReplace "uniswap_v2" "_v2" "" ∧
    defiProtocolIcon "makerdao_dsr" = "makerdao" ∧
    defiProtocolIcon "compound" = "compound" ∧
    jsReplaceList "_v2".data [] ("uniswap".data ++ "_v2".data ++ []) =
      "uniswap".data ++ [] := by
  refine ⟨(defi_protocol_icon_spec "uniswap_v2").1 (by decide),
    (defi_protocol_icon_spec "makerdao_dsr").2.1 (by decide) (by decide),
    (defi_protocol_icon_spec "compound").2.2.1 (by decide) (by decide),
    (defi_protocol_icon_spec "x").2.2.2 "uniswap".data [] ?_⟩
  decide

/-! ## History event subtype options (C10)

`HistoryEventTypeForm.vue` lines 73-88 compute the options of the subtype
autocomplete: the full subtype list when the event type is empty (falsy),
otherwise the subtypes whose identifier is among the keys of the global
mapping entry for the event type, an absent entry leaving the key list
empty. -/

/-- An entry of the history-event type/subtype data (`ActionDataEntry`):
the fields this component reads. -/
structure ActionDataEntry where
  identifier : String
  label : String
deriving DecidableEq, Repr

/-- The `historyEventSubTypeFilteredData` computed (`HistoryEventTypeForm.vue`
lines 73-88).  The global mapping is an association from event-type
identifier to an object whose keys (`Object.keys`) are subtype identifiers;
the object's values are irrelevant here and kept as a type parameter. -/
def historyEventSubTypeFilteredData {β : Type} (eventType : String)
    (allData : List ActionDataEntry)
    (globalMapping : List (String × List (String × β))) : List ActionDataEntry :=
  if eventType = "" then allData
  else
    let globalMappingKeys :=
      match globalMapping.lookup eventType with
      | some found => found.map Prod.fst
      | none => []
    allData.filter fun d => globalMappingKeys.contains d.identifier

/-- C10: the subtype options equal the full subtype list when the event type
is empty; for a non-empty event type they are the subtypes whose identifier
is a key of the global mapping entry for that type, in the original list
order (`List.filter` keeps it), and an event type absent from the global
mapping yields an empty options list. -/
theorem subtype_options_follow_global_mapping {β : Type} (eventType : String)
    (allData : List ActionDataEntry)
    (globalMapping : List (String × List (String × β))) :
    (eventType = "" →
      historyEventSubTypeFilteredData eventType allData globalMapping = allData) ∧
    (eventType ≠ "" → globalMapping.lookup eventType = none →
      historyEventSubTypeFilteredData eventType allData globalMapping = []) ∧
    (∀ found, eventType ≠ "" → globalMapping.lookup eventType = some found →
      historyEventSubTypeFilteredData eventType allData globalMapping =
        allData.filter fun d => (found.map Prod.fst).contains d.identifier) := by
  refine ⟨fun h => ?_, fun h hnone => ?_, fun found h hfound => ?_⟩
  · simp [historyEventSubTypeFilteredData, h]
  · simp only [historyEventSubTypeFilteredData, if_neg h, hnone]
    induction allData with
    | nil => rfl
    | cons d rest ih => simp [List.filter, ih]
  · simp [historyEventSubTypeFilteredData, if_neg h, hfound]

/-- Witness for C10: with subtype data `fee`, `spend`, `receive` and a global
mapping carrying only the `trade` event type with keys `spend` and `receive`,
the options for `trade` are `spend` and `receive` in order; for the unmapped
event type `staking` the options are empty; for the empty event type the full
list is returned. -/
theorem subtype_options_follow_global_mapping_witness :
    historyEventSubTypeFilteredData "trade"
      [⟨"fee", "Fee"⟩, ⟨"spend", "Spend"⟩, ⟨"receive", "Receive"⟩]
      [("trade", [("spend", 0), ("receive", 0)])] =
      [⟨"spend", "Spend"⟩, ⟨"receive", "Receive"⟩] ∧
    historyEventSubTypeFilteredData "staking"
      [⟨"fee", "Fee"⟩, ⟨"spend", "Spend"⟩, ⟨"receive", "Receive"⟩]
      [("trade", [("spend", 0), ("receive", 0)])] = [] ∧
    historyEventSubTypeFilteredData ""
      [⟨"fee", "Fee"⟩, ⟨"spend", "Spend"⟩, ⟨"receive", "Receive"⟩]
      [("trade", [("spend", (0 : Nat)), ("receive", 0)])] =
      [⟨"fee", "Fee"⟩, ⟨"spend", "Spend"⟩, ⟨"receive", "Receive"⟩] := by
  refine ⟨?_, ?_, ?_⟩
  · rw [(subtype_options_follow_global_mapping "trade"
      [⟨"fee", "Fee"⟩, ⟨"spend", "Spend"⟩, ⟨"receive", "Receive"⟩]
      [("trade", [("spend", (0 : Nat)), ("receive", 0)])]).2.2
      [("spend", 0), ("receive", 0)] (by decide) (by decide)]
    decide
  · exact (subtype_options_follow_global_mapping "staking"
      [⟨"fee", "Fee"⟩, ⟨"spend", "Spend"⟩, ⟨"receive", "Receive"⟩]
      [("trade", [("spend", (0 : Nat)), ("receive", 0)])]).2.1 (by decide) (by decide)
  · exact (subtype_options_follow_global_mapping ""
      [⟨"fee", "Fee"⟩, ⟨"spend", "Spend"⟩, ⟨"receive", "Receive"⟩]
      [("trade", [("spend", (0 : Nat)), ("receive", 0)])]).1 rfl
